import Mathlib

/-!
Shallow embedding of the document-AI backend core (schema validation,
quality scoring, AI-extraction retry loop) and verification of the
specification claims about it.

Conventions of the embedding:
* Python `Decimal` and `float` become `ℚ` (exact rational arithmetic).
* Python `date` becomes `Int` (an ordinal day number); only comparisons
  are performed on dates, so the choice of epoch is irrelevant.
* Python `dict` becomes an association list with `dict_get` lookup.
* A Python method mutating `self.issues` becomes explicit state passing
  on a `QualityScorer` structure.
* Python exceptions become `Except` values.
-/

deriving instance DecidableEq for Except

namespace DocAI

/-- Substring test, modelling the Python `needle in haystack` operator. -/
def str_contains (haystack needle : String) : Bool :=
  (haystack.splitOn needle).length > 1

/-- Model of Python `int(s)` restricted to plain digit strings (the only
shape it is ever applied to in this codebase: zip codes that passed the
5-digit validator).  Returns `none` where Python would raise `ValueError`. -/
def int_of_string (s : String) : Option Nat :=
  if s ≠ "" ∧ s.data.all Char.isDigit then
    some (s.data.foldl (fun n c => n * 10 + (c.toNat - 48)) 0)
  else
    none

/-- Dictionary lookup on an association list (Python `d[k]` / `k in d`). -/
def dict_get {α : Type} : List (String × α) → String → Option α
  | [], _ => none
  | (k, v) :: rest, key => if k = key then some v else dict_get rest key

/-- Truthiness of an optional decimal value: Python `if x:` on an
`Optional[Decimal]` is false for `None` and for zero. -/
def opt_truthy (x : Option ℚ) : Bool :=
  match x with
  | none => false
  | some v => decide (v ≠ 0)

/-- Truthiness of an optional list (Python `if xs:`). -/
def opt_list_truthy {α : Type} (x : Option (List α)) : Bool :=
  match x with
  | none => false
  | some l => !l.isEmpty

/-! ## Data model (schemas.py) -/

/-- Address information (`AddressData` in schemas.py). -/
structure AddressData where
  street : String
  house_number : String
  zip_code : String
  city : String
  apartment_unit : Option String
deriving DecidableEq

/-- Individual tenant information (`TenantInfo` in schemas.py). -/
structure TenantInfo where
  first_name : String
  last_name : String
  birth_date : Option Int
deriving DecidableEq

/-- Enumerated rent-increase classification (the `Literal` type of
`rent_increase_type` in schemas.py). -/
inductive RentIncreaseType where
  | index_linked
  | percentage
  | fixed_step
  | none
  | unknown
deriving DecidableEq

/-- String value of the `rent_increase_type` literal (the runtime value is
a plain string in Python). -/
def RentIncreaseType.str : RentIncreaseType → String
  | .index_linked => "index-linked"
  | .percentage => "percentage"
  | .fixed_step => "fixed_step"
  | .none => "none"
  | .unknown => "unknown"

/-- Complete lease extraction result (`LeaseExtraction` in schemas.py).
The rent-increase schedule entries are string-keyed dictionaries in the
source; only presence and length are ever inspected. -/
structure LeaseExtraction where
  tenants : List TenantInfo
  name : Option String
  surname : Option String
  address : AddressData
  warm_rent : ℚ
  cold_rent : ℚ
  utilities_cost : Option ℚ
  parking_rent : Option ℚ
  rent_increase_type : RentIncreaseType
  rent_increase_schedule : Option (List (List (String × String)))
  contract_start_date : Int
  contract_end_date : Option Int
  is_active : Bool
  landlord_name : Option String
  landlord_address : Option String
  deposit_amount : Option ℚ
  notice_period : Option String
  special_clauses : Option (List String)
  utilities_included : Option (List String)
  square_meters : Option ℚ
  number_of_rooms : Option ℚ
  confidence_scores : List (String × ℚ)
  ai_model_used : String
deriving DecidableEq

/-! ## Schema validators (schemas.py field validators)

Pydantic validates fields in declaration order and collects every
field-level violation.  A cross-field validator sees, in `info.data`,
only the fields declared (and successfully validated) before its own
field. -/

/-- Validator `AddressData.validate_german_postal_code`: the regex
`^\d` followed by `{5}$`, i.e. exactly five digits. -/
def validate_german_postal_code (v : String) : Except String String :=
  if v.length = 5 ∧ v.data.all Char.isDigit then
    Except.ok v
  else
    Except.error ("Invalid German postal code: " ++ v ++ ". Must be 5 digits.")

/-- The house-number regex `^[0-9]+[a-zA-Z]?$`: one or more digits
followed by at most one ASCII letter. -/
def house_number_ok (v : String) : Bool :=
  let cs := v.data
  let ds := cs.takeWhile Char.isDigit
  let rest := cs.dropWhile Char.isDigit
  decide (ds ≠ []) && decide (rest.length ≤ 1) && rest.all Char.isAlpha

/-- Validator `AddressData.validate_house_number`. -/
def validate_house_number (v : String) : Except String String :=
  if house_number_ok v then Except.ok v
  else Except.error ("Invalid house number format: " ++ v)

/-- The fields of `LeaseExtraction` declared before `warm_rent` in
schemas.py (declaration order: tenants, name, surname, address,
warm_rent, cold_rent, ...).  These are the only keys present in
`info.data` when the `warm_rent` field validator runs. -/
def fields_before_warm_rent : List String :=
  ["tenants", "name", "surname", "address"]

/-- Validator `LeaseExtraction.validate_warm_rent_vs_cold_rent`: raises
only when `cold_rent` is already in `info.data` and `warm_rent` is
smaller.  `data_keys` is the set of previously-validated field names. -/
def validate_warm_rent_vs_cold_rent (v : ℚ) (data_keys : List String)
    (cold_rent : ℚ) : Except String ℚ :=
  if "cold_rent" ∈ data_keys ∧ v < cold_rent then
    Except.error "Warm rent must be greater than or equal to cold rent"
  else
    Except.ok v

/-- The list of field-level violations collected by pydantic validation
of a `LeaseExtraction` model, in field-declaration order.
(`validate_date_not_future` and `validate_utilities_calculation` never
raise in the source and therefore contribute no checks.) -/
def LeaseExtraction.validation_errors_list (r : LeaseExtraction) : List String :=
  (if r.tenants.length ≥ 1 then [] else ["tenants: List should have at least 1 item"]) ++
    (r.tenants.flatMap fun t =>
      (if t.first_name.length ≥ 1 then [] else ["first_name: String should have at least 1 character"]) ++
      (if t.last_name.length ≥ 1 then [] else ["last_name: String should have at least 1 character"])) ++
    (if r.address.street.length ≥ 1 then [] else ["street: String should have at least 1 character"]) ++
    (match validate_house_number r.address.house_number with
      | Except.ok _ => [] | Except.error e => [e]) ++
    (match validate_german_postal_code r.address.zip_code with
      | Except.ok _ => [] | Except.error e => [e]) ++
    (if r.address.city.length ≥ 1 then [] else ["city: String should have at least 1 character"]) ++
    (if 0 < r.warm_rent then [] else ["warm_rent: Input should be greater than 0"]) ++
    (match validate_warm_rent_vs_cold_rent r.warm_rent fields_before_warm_rent r.cold_rent with
      | Except.ok _ => [] | Except.error e => [e]) ++
    (if 0 < r.cold_rent then [] else ["cold_rent: Input should be greater than 0"]) ++
    (match r.utilities_cost with
      | Option.none => [] | some u => if 0 ≤ u then [] else ["utilities_cost: Input should be greater than or equal to 0"]) ++
    (match r.parking_rent with
      | Option.none => [] | some p => if 0 ≤ p then [] else ["parking_rent: Input should be greater than or equal to 0"]) ++
    (match r.deposit_amount with
      | Option.none => [] | some d => if 0 < d then [] else ["deposit_amount: Input should be greater than 0"]) ++
    (match r.square_meters with
      | Option.none => [] | some s => if 0 < s then [] else ["square_meters: Input should be greater than 0"]) ++
    (match r.number_of_rooms with
      | Option.none => [] | some n => if 0 < n then [] else ["number_of_rooms: Input should be greater than 0"])

/-- Full pydantic validation of a `LeaseExtraction` model: succeeds when
no declared constraint is violated, otherwise fails with the complete
violation list. -/
def LeaseExtraction.validate (r : LeaseExtraction) : Except (List String) Unit :=
  if r.validation_errors_list = [] then Except.ok ()
  else Except.error r.validation_errors_list

/-! ## Quality scorer (services/quality_scorer.py) -/

/-- A quality issue found during assessment (`QualityIssue` dataclass). -/
structure QualityIssue where
  severity : String
  category : String
  field : String
  message : String
  impact : ℚ
deriving DecidableEq

/-- Quality assessment metrics (`QualityMetrics` in schemas.py). -/
structure QualityMetrics where
  overall_score : ℚ
  confidence_score : ℚ
  completeness_score : ℚ
  validation_score : ℚ
  consistency_score : ℚ
  validation_errors : List String
  warnings : List String
  field_scores : List (String × ℚ)
deriving DecidableEq

/-- Pydantic construction of a `QualityMetrics` model: the declared
`ge`/`le` field constraints are enforced, raising a validation error when
any bound is violated (overall in [0,100], confidence in [0,1], the other
three scores in [0,100]). -/
def QualityMetrics.build (overall_score confidence_score completeness_score
    validation_score consistency_score : ℚ)
    (validation_errors warnings : List String) : Except String QualityMetrics :=
  if 0 ≤ overall_score ∧ overall_score ≤ 100 ∧
     0 ≤ confidence_score ∧ confidence_score ≤ 1 ∧
     0 ≤ completeness_score ∧ completeness_score ≤ 100 ∧
     0 ≤ validation_score ∧ validation_score ≤ 100 ∧
     0 ≤ consistency_score ∧ consistency_score ≤ 100 then
    Except.ok
      { overall_score := overall_score
        confidence_score := confidence_score
        completeness_score := completeness_score
        validation_score := validation_score
        consistency_score := consistency_score
        validation_errors := validation_errors
        warnings := warnings
        field_scores := [] }
  else
    Except.error "ValidationError: QualityMetrics field constraint violated"

/-- Quality tier derived from `overall_score`
(`QualityMetrics.quality_tier` property in schemas.py): 80/60 boundaries. -/
def QualityMetrics.quality_tier (m : QualityMetrics) : String :=
  if m.overall_score ≥ 80 then "excellent"
  else if m.overall_score ≥ 60 then "good"
  else "poor"

/-- The scorer object; its only instance state is the `issues` list
(`QualityScorer.__init__`). -/
structure QualityScorer where
  issues : List QualityIssue
deriving DecidableEq

namespace QualityScorer

/-- Required fields that MUST be present (`QualityScorer.REQUIRED_FIELDS`). -/
def REQUIRED_FIELDS : List String :=
  ["tenants", "address.street", "address.house_number", "address.zip_code",
   "address.city", "warm_rent", "cold_rent", "contract_start_date",
   "rent_increase_type"]

/-- Bonus fields that are nice to have (`QualityScorer.BONUS_FIELDS`). -/
def BONUS_FIELDS : List String :=
  ["landlord_name", "landlord_address", "deposit_amount", "notice_period",
   "special_clauses", "utilities_included", "square_meters",
   "number_of_rooms", "parking_rent", "utilities_cost"]

/-- Weight of the confidence sub-score. -/
def CONFIDENCE_WEIGHT : ℚ := 0.30
/-- Weight of the completeness sub-score. -/
def COMPLETENESS_WEIGHT : ℚ := 0.25
/-- Weight of the validation sub-score. -/
def VALIDATION_WEIGHT : ℚ := 0.25
/-- Weight of the consistency sub-score. -/
def CONSISTENCY_WEIGHT : ℚ := 0.20

/-- Evaluation of `QualityScorer._is_field_filled` for each field name the
scorer ever passes to it; the dynamic `getattr` traversal and
`isinstance` dispatch of the source are resolved per field.  Strings are
filled when non-empty after stripping, lists when non-empty, numbers when
strictly positive, other objects (dates) when present; an unknown
attribute yields `None` and is unfilled. -/
def _is_field_filled (r : LeaseExtraction) (field : String) : Bool :=
  match field with
  | "tenants" => !r.tenants.isEmpty
  | "address.street" => r.address.street.trim.length > 0
  | "address.house_number" => r.address.house_number.trim.length > 0
  | "address.zip_code" => r.address.zip_code.trim.length > 0
  | "address.city" => r.address.city.trim.length > 0
  | "warm_rent" => decide (0 < r.warm_rent)
  | "cold_rent" => decide (0 < r.cold_rent)
  | "contract_start_date" => true
  | "rent_increase_type" => r.rent_increase_type.str.trim.length > 0
  | "landlord_name" =>
      match r.landlord_name with
      | Option.none => false | some s => s.trim.length > 0
  | "landlord_address" =>
      match r.landlord_address with
      | Option.none => false | some s => s.trim.length > 0
  | "deposit_amount" =>
      match r.deposit_amount with
      | Option.none => false | some v => decide (0 < v)
  | "notice_period" =>
      match r.notice_period with
      | Option.none => false | some s => s.trim.length > 0
  | "special_clauses" =>
      match r.special_clauses with
      | Option.none => false | some l => !l.isEmpty
  | "utilities_included" =>
      match r.utilities_included with
      | Option.none => false | some l => !l.isEmpty
  | "square_meters" =>
      match r.square_meters with
      | Option.none => false | some v => decide (0 < v)
  | "number_of_rooms" =>
      match r.number_of_rooms with
      | Option.none => false | some v => decide (0 < v)
  | "parking_rent" =>
      match r.parking_rent with
      | Option.none => false | some v => decide (0 < v)
  | "utilities_cost" =>
      match r.utilities_cost with
      | Option.none => false | some v => decide (0 < v)
  | _ => false

/-- Lookup key used by `_calculate_confidence_score` for a required field:
for a nested field such as `address.street` the parent field name
(`address`) is used. -/
def confidence_field_key (field : String) : String :=
  if str_contains field "." then (field.splitOn ".").headD field else field

/-- The per-field loop body of `_calculate_confidence_score`, folded over
a list of field names: collects the confidence of every required field
(defaulting to 0.5 when absent from the map) and flags an in-map
confidence below 0.6 as a warning, but only when the lookup key equals
the field name itself (`field_key == field`). -/
def confidence_fold (scores : List (String × ℚ)) :
    List String → List ℚ × List QualityIssue
  | [] => ([], [])
  | field :: rest =>
    let field_key := confidence_field_key field
    let t := confidence_fold scores rest
    let confs := t.1
    let issues := t.2
    match dict_get scores field_key with
    | some score =>
        let here : List QualityIssue :=
          if score < 0.6 ∧ field_key = field then
            [{ severity := "warning", category := "confidence",
               field := field_key,
               message := "Low confidence score: " ++ toString score,
               impact := 0.1 }]
          else []
        (score :: confs, here ++ issues)
    | Option.none => ((0.5 : ℚ) :: confs, issues)

/-- `QualityScorer._calculate_confidence_score`, returning the issues it
appends together with the score. -/
def _calculate_confidence_score (r : LeaseExtraction) :
    List QualityIssue × ℚ :=
  if r.confidence_scores = [] then
    ([{ severity := "warning", category := "confidence",
        field := "confidence_scores",
        message := "No confidence scores provided by AI", impact := 0.3 }],
     50)
  else
    let cf := confidence_fold r.confidence_scores REQUIRED_FIELDS
    let required_confidences := cf.1
    let issues := cf.2
    if required_confidences ≠ [] then
      (issues,
       required_confidences.sum / (required_confidences.length : ℚ) * 100)
    else
      (issues, 50)

/-- `QualityScorer._calculate_completeness_score`, returning the issues it
appends together with the score. -/
def _calculate_completeness_score (r : LeaseExtraction) :
    List QualityIssue × ℚ :=
  let issues : List QualityIssue := REQUIRED_FIELDS.filterMap fun field =>
    if _is_field_filled r field then Option.none
    else some { severity := "error", category := "completeness",
                field := field,
                message := "Required field " ++ field ++ " is missing or empty",
                impact := 0.2 }
  let required_filled := (REQUIRED_FIELDS.filter (_is_field_filled r)).length
  let required_total := REQUIRED_FIELDS.length
  let bonus_filled := (BONUS_FIELDS.filter (_is_field_filled r)).length
  let bonus_total := BONUS_FIELDS.length
  let required_percentage : ℚ :=
    if required_total > 0 then (required_filled : ℚ) / (required_total : ℚ) else 0
  let bonus_percentage : ℚ :=
    if bonus_total > 0 then (bonus_filled : ℚ) / (bonus_total : ℚ) else 0
  (issues, (required_percentage * 0.7 + bonus_percentage * 0.3) * 100)

/-- Rule 1 of `_calculate_validation_score`: warm rent ≥ cold rent
(always applicable; error on failure). -/
def rule_1 (r : LeaseExtraction) : Option (Bool × QualityIssue) :=
  some (decide (r.warm_rent ≥ r.cold_rent),
    { severity := "error", category := "validation", field := "rent",
      message := "Warm rent (€" ++ toString r.warm_rent ++ ") < Cold rent (€"
                 ++ toString r.cold_rent ++ ")",
      impact := 0.3 })

/-- Rule 2: utilities calculation check, applicable only when
`utilities_cost` is truthy; parking rent is subtracted only when truthy;
±10% tolerance. -/
def rule_2 (r : LeaseExtraction) : Option (Bool × QualityIssue) :=
  if opt_truthy r.utilities_cost then
    let u := r.utilities_cost.getD 0
    let expected0 := r.warm_rent - r.cold_rent
    let expected_utilities :=
      if opt_truthy r.parking_rent then expected0 - r.parking_rent.getD 0
      else expected0
    let tolerance := expected_utilities * (0.10 : ℚ)
    some (decide (|u - expected_utilities| ≤ tolerance),
      { severity := "warning", category := "validation",
        field := "utilities_cost",
        message := "Utilities (€" ++ toString u ++ ") do not match warm-cold difference",
        impact := 0.1 })
  else
    Option.none

/-- Rule 3: contract end date strictly after start date, applicable only
when an end date is present. -/
def rule_3 (r : LeaseExtraction) : Option (Bool × QualityIssue) :=
  match r.contract_end_date with
  | Option.none => Option.none
  | some e =>
    some (decide (e > r.contract_start_date),
      { severity := "error", category := "validation",
        field := "contract_dates",
        message := "Contract end date is before start date", impact := 0.2 })

/-- Rule 4: cold rent within [100, 10000] (always applicable). -/
def rule_4 (r : LeaseExtraction) : Option (Bool × QualityIssue) :=
  some (decide ((100 : ℚ) ≤ r.cold_rent ∧ r.cold_rent ≤ 10000),
    { severity := "warning", category := "validation", field := "cold_rent",
      message := "Unusual cold rent amount: €" ++ toString r.cold_rent,
      impact := 0.1 })

/-- Rule 5: deposit within [2×, 3×·1.2] cold rent, applicable only when a
deposit is truthy. -/
def rule_5 (r : LeaseExtraction) : Option (Bool × QualityIssue) :=
  if opt_truthy r.deposit_amount then
    let d := r.deposit_amount.getD 0
    let expected_deposit_min := r.cold_rent * 2
    let expected_deposit_max := r.cold_rent * 3 * (1.2 : ℚ)
    some (decide (expected_deposit_min ≤ d ∧ d ≤ expected_deposit_max),
      { severity := "info", category := "validation", field := "deposit_amount",
        message := "Deposit (€" ++ toString d ++ ") unusual for rent (€"
                   ++ toString r.cold_rent ++ ")",
        impact := 0.05 })
  else
    Option.none

/-- Rule 6: at least one tenant (always applicable; error on failure). -/
def rule_6 (r : LeaseExtraction) : Option (Bool × QualityIssue) :=
  some (!r.tenants.isEmpty,
    { severity := "error", category := "validation", field := "tenants",
      message := "No tenants found", impact := 0.3 })

/-- Rule 7: number of rooms within [0.5, 10], applicable when truthy. -/
def rule_7 (r : LeaseExtraction) : Option (Bool × QualityIssue) :=
  if opt_truthy r.number_of_rooms then
    let n := r.number_of_rooms.getD 0
    some (decide ((0.5 : ℚ) ≤ n ∧ n ≤ 10),
      { severity := "warning", category := "validation",
        field := "number_of_rooms",
        message := "Unusual number of rooms: " ++ toString n, impact := 0.05 })
  else
    Option.none

/-- Rule 8: square meters within [10, 500], applicable when truthy. -/
def rule_8 (r : LeaseExtraction) : Option (Bool × QualityIssue) :=
  if opt_truthy r.square_meters then
    let s := r.square_meters.getD 0
    some (decide ((10 : ℚ) ≤ s ∧ s ≤ 500),
      { severity := "warning", category := "validation",
        field := "square_meters",
        message := "Unusual square meters: " ++ toString s ++ "m²",
        impact := 0.05 })
  else
    Option.none

/-- The fixed ordered rule table of `_calculate_validation_score`.  Each
rule returns `none` when not applicable, otherwise its pass/fail verdict
paired with the issue appended on failure. -/
def validation_rules : List (LeaseExtraction → Option (Bool × QualityIssue)) :=
  [rule_1, rule_2, rule_3, rule_4, rule_5, rule_6, rule_7, rule_8]

/-- `QualityScorer._calculate_validation_score`: tallies applicable rules,
appends an issue per failed rule, and scores passed/total×100 (100 when
no rule is applicable). -/
def _calculate_validation_score (r : LeaseExtraction) :
    List QualityIssue × ℚ :=
  let results := validation_rules.filterMap fun rule => rule r
  let total_rules := results.length
  let passed_rules := (results.filter fun p => p.1).length
  let issues := results.filterMap fun p =>
    if p.1 then Option.none else some p.2
  (issues,
   if total_rules > 0 then (passed_rules : ℚ) / (total_rules : ℚ) * 100
   else 100)

/-- Consistency check 1: `is_active` versus contract end date (always
applicable; compares against today). -/
def check_1 (today : Int) (r : LeaseExtraction) :
    Except String (Option (Bool × QualityIssue)) :=
  Except.ok (some
    (match r.contract_end_date with
     | some e =>
        (r.is_active == decide (e ≥ today),
         { severity := "warning", category := "consistency",
           field := "is_active",
           message := "is_active inconsistent with end_date", impact := 0.1 })
     | Option.none =>
        (r.is_active,
         { severity := "info", category := "consistency", field := "is_active",
           message := "Unlimited contract marked as inactive",
           impact := 0.05 })))

/-- Consistency check 2: rent-increase schedule matches the classification
(always applicable). -/
def check_2 (_today : Int) (r : LeaseExtraction) :
    Except String (Option (Bool × QualityIssue)) :=
  Except.ok (some
    (match r.rent_increase_type with
     | RentIncreaseType.fixed_step =>
        (opt_list_truthy r.rent_increase_schedule,
         { severity := "warning", category := "consistency",
           field := "rent_increase_schedule",
           message := "Rent type is fixed_step but no schedule provided",
           impact := 0.15 })
     | RentIncreaseType.none =>
        (!opt_list_truthy r.rent_increase_schedule,
         { severity := "warning", category := "consistency",
           field := "rent_increase_schedule",
           message := "Rent type is none but schedule exists", impact := 0.1 })
     | _ =>
        (true,
         { severity := "info", category := "consistency",
           field := "rent_increase_schedule", message := "", impact := 0 })))

/-- Consistency check 3: legacy name fields mirror the first tenant,
applicable only when the tenant list is non-empty. -/
def check_3 (_today : Int) (r : LeaseExtraction) :
    Except String (Option (Bool × QualityIssue)) :=
  Except.ok
    (match r.tenants with
     | [] => Option.none
     | first_tenant :: _ =>
        some (decide (r.name = some first_tenant.first_name ∧
                      r.surname = some first_tenant.last_name),
          { severity := "info", category := "consistency",
            field := "name/surname",
            message := "Legacy name fields do not match first tenant",
            impact := 0.05 }))

/-- Munich postal-code ranges used by consistency check 4. -/
def munich_zip_ranges : List (Nat × Nat) := [(80000, 81999)]

/-- Consistency check 4: postal code plausibility for Munich (always
applicable; other cities pass unchecked).  The `int(...)` conversion of
the zip code is the one operation in the scorer that can raise. -/
def check_4 (_today : Int) (r : LeaseExtraction) :
    Except String (Option (Bool × QualityIssue)) :=
  if str_contains r.address.city.toLower "münchen" ∨
     str_contains r.address.city.toLower "munich" then
    match int_of_string r.address.zip_code with
    | Option.none =>
        Except.error ("invalid literal for int: " ++ r.address.zip_code)
    | some zip_int =>
        Except.ok (some
          (munich_zip_ranges.any fun p =>
             decide (p.1 ≤ zip_int) && decide (zip_int ≤ p.2),
           { severity := "info", category := "consistency", field := "address",
             message := "Postal code " ++ r.address.zip_code ++ " unusual for München",
             impact := 0.05 }))
  else
    Except.ok (some (true,
      { severity := "info", category := "consistency", field := "address",
        message := "", impact := 0 }))

/-- Consistency check 5: parking rent strictly below cold rent, applicable
only when parking rent is truthy. -/
def check_5 (_today : Int) (r : LeaseExtraction) :
    Except String (Option (Bool × QualityIssue)) :=
  Except.ok
    (if opt_truthy r.parking_rent then
      some (decide (r.parking_rent.getD 0 < r.cold_rent),
        { severity := "warning", category := "consistency",
          field := "parking_rent",
          message := "Parking (€" ++ toString (r.parking_rent.getD 0)
                     ++ ") >= Cold rent (€" ++ toString r.cold_rent ++ ")",
          impact := 0.1 })
    else Option.none)

/-- The fixed ordered check table of `_calculate_consistency_score`. -/
def consistency_checks :
    List (Int → LeaseExtraction → Except String (Option (Bool × QualityIssue))) :=
  [check_1, check_2, check_3, check_4, check_5]

/-- Runs the consistency checks in order, collecting the verdicts of the
checks executed before any raising check; a raised error aborts the
remaining checks (second component). -/
def collect_checks (today : Int) (r : LeaseExtraction) :
    List (Int → LeaseExtraction → Except String (Option (Bool × QualityIssue))) →
    List (Bool × QualityIssue) × Option String
  | [] => ([], Option.none)
  | c :: rest =>
    match c today r with
    | Except.error e => ([], some e)
    | Except.ok Option.none => collect_checks today r rest
    | Except.ok (some pr) =>
      let t := collect_checks today r rest
      (pr :: t.1, t.2)

/-- `QualityScorer._calculate_consistency_score`: tallies applicable
checks, appends an issue per failed check, and scores passed/total×100;
a raising check aborts the assessment with the issues found so far. -/
def _calculate_consistency_score (today : Int) (r : LeaseExtraction) :
    List QualityIssue × Except String ℚ :=
  let cr := collect_checks today r consistency_checks
  let results := cr.1
  let err := cr.2
  let total_checks := results.length
  let passed_checks := (results.filter fun p => p.1).length
  let issues := results.filterMap fun p =>
    if p.1 then Option.none else some p.2
  match err with
  | some e => (issues, Except.error e)
  | Option.none =>
    (issues,
     Except.ok (if total_checks > 0 then
        (passed_checks : ℚ) / (total_checks : ℚ) * 100
      else 100))

/-- `QualityScorer._determine_quality_level`: 90/75/60 boundaries. -/
def _determine_quality_level (score : ℚ) : String :=
  if score ≥ 90 then "excellent"
  else if score ≥ 75 then "good"
  else if score ≥ 60 then "fair"
  else "poor"

/-- `QualityScorer.assess_quality`: resets `self.issues`, computes the
four sub-scores (each appending to `self.issues`), forms the weighted
overall score, and constructs the `QualityMetrics` report.  The first
component of the result is the scorer object as left by the call (its
`issues` field holds the accumulated issues); the second is the report,
or the raised error. -/
def assess_quality (today : Int) (self : QualityScorer)
    (extraction : LeaseExtraction) :
    QualityScorer × Except String QualityMetrics :=
  let self0 : QualityScorer := { self with issues := [] }
  let conf := _calculate_confidence_score extraction
  let self1 : QualityScorer := { self0 with issues := self0.issues ++ conf.1 }
  let completeness := _calculate_completeness_score extraction
  let self2 : QualityScorer := { self1 with issues := self1.issues ++ completeness.1 }
  let validation := _calculate_validation_score extraction
  let self3 : QualityScorer := { self2 with issues := self2.issues ++ validation.1 }
  let consistency := _calculate_consistency_score today extraction
  let self4 : QualityScorer := { self3 with issues := self3.issues ++ consistency.1 }
  match consistency.2 with
  | Except.error e => (self4, Except.error e)
  | Except.ok consistency_score =>
    let overall_score :=
      conf.2 * CONFIDENCE_WEIGHT +
      completeness.2 * COMPLETENESS_WEIGHT +
      validation.2 * VALIDATION_WEIGHT +
      consistency_score * CONSISTENCY_WEIGHT
    let _quality_level := _determine_quality_level overall_score
    (self4,
     QualityMetrics.build overall_score (conf.2 / 100) completeness.2
       validation.2 consistency_score
       ((self4.issues.filter fun i => i.severity == "error").map fun i => i.message)
       ((self4.issues.filter fun i => i.severity == "warning").map fun i => i.message))

end QualityScorer

/-- Module-level singleton instance (`quality_scorer` in
quality_scorer.py). -/
def quality_scorer : QualityScorer := { issues := [] }

namespace QualityScorer

/-- The warning optionally emitted for one required field by the
confidence-scoring loop: present exactly when the looked-up confidence is
below 0.6 and the lookup key equals the field name itself. -/
def low_conf_warning (scores : List (String × ℚ)) (field : String) :
    Option QualityIssue :=
  match dict_get scores (confidence_field_key field) with
  | some score =>
      if score < 0.6 ∧ confidence_field_key field = field then
        some { severity := "warning", category := "confidence",
               field := confidence_field_key field,
               message := "Low confidence score: " ++ toString score,
               impact := 0.1 }
      else Option.none
  | Option.none => Option.none

/-- The issue recorded when the confidence map is absent. -/
def no_conf_issue : QualityIssue :=
  { severity := "warning", category := "confidence",
    field := "confidence_scores",
    message := "No confidence scores provided by AI", impact := 0.3 }

/-- The full issue list accumulated by one `assess_quality` call
(confidence, completeness, validation, consistency, in append order). -/
def assess_issues (today : Int) (r : LeaseExtraction) : List QualityIssue :=
  (_calculate_confidence_score r).1 ++ (_calculate_completeness_score r).1 ++
  (_calculate_validation_score r).1 ++ (_calculate_consistency_score today r).1

end QualityScorer

/-- The hard structural gate of the Schema Validator: every pydantic
constraint of `LeaseExtraction` except the (order-dead) warm-vs-cold-rent
check.  This is what "all hard-gate fields structurally valid" means. -/
def hard_gate_ok (r : LeaseExtraction) : Prop :=
  r.tenants.length ≥ 1 ∧
  r.tenants.all (fun t => decide (t.first_name.length ≥ 1) &&
    decide (t.last_name.length ≥ 1)) = true ∧
  r.address.street.length ≥ 1 ∧
  house_number_ok r.address.house_number = true ∧
  r.address.zip_code.length = 5 ∧
  r.address.zip_code.data.all Char.isDigit = true ∧
  r.address.city.length ≥ 1 ∧
  0 < r.warm_rent ∧
  0 < r.cold_rent ∧
  r.utilities_cost.all (fun u => decide (0 ≤ u)) = true ∧
  r.parking_rent.all (fun p => decide (0 ≤ p)) = true ∧
  r.deposit_amount.all (fun d => decide (0 < d)) = true ∧
  r.square_meters.all (fun s => decide (0 < s)) = true ∧
  r.number_of_rooms.all (fun n => decide (0 < n)) = true

instance (r : LeaseExtraction) : Decidable (hard_gate_ok r) := by
  unfold hard_gate_ok
  infer_instance

/-! ## AI extractor (services/ai_extractor.py)

The external completion collaborator is modelled as a function from the
0-indexed attempt number to the outcome of that call: an API-level
failure (`OpenAIError`), a JSON parse failure (`json.JSONDecodeError`),
or a successfully parsed candidate.  The candidate is modelled already in
typed form; pydantic's schema validation of it is `LeaseExtraction.validate`. -/

/-- Outcome of one collaborator invocation inside `_extract_with_openai`. -/
inductive AttemptOutcome where
  | apiError (msg : String)
  | parseError (msg : String)
  | parsed (data : LeaseExtraction)
deriving DecidableEq

/-- The error kinds `_extract_with_openai` can raise: a re-raised
`OpenAIError`, or the repo's own `ExtractionError`. -/
inductive ExtractorError where
  | openAIError (msg : String)
  | extractionError (msg : String)
deriving DecidableEq

/-- True exactly for the `ExtractionError` kind. -/
def ExtractorError.is_extraction_kind : ExtractorError → Bool
  | .openAIError _ => false
  | .extractionError _ => true

namespace AIExtractor

/-- Retry configuration (`AIExtractor.MAX_RETRIES`). -/
def MAX_RETRIES : Nat := 3

/-- Retry configuration (`AIExtractor.BASE_RETRY_DELAY`), in seconds. -/
def BASE_RETRY_DELAY : ℚ := 1

/-- `AIExtractor._exponential_backoff`: the delay slept before the retry
following 0-indexed attempt `attempt`. -/
def _exponential_backoff (attempt : Nat) : ℚ :=
  BASE_RETRY_DELAY * 2 ^ attempt

/-- `AIExtractor._validate_extraction`: validates the candidate against
the pydantic schema and wraps a failure in an `ExtractionError` message. -/
def _validate_extraction (data : LeaseExtraction) : Except String Unit :=
  match data.validate with
  | Except.ok _ => Except.ok ()
  | Except.error errs =>
      Except.error ("Extracted data does not match schema: " ++
        String.intercalate "; " errs)

/-- Observable trace of one `_extract_with_openai` run: how many times the
collaborator was invoked, the backoff delays slept (in order, in
seconds), and the returned value or raised error. -/
structure ExtractTrace where
  calls : Nat
  delays : List ℚ
  result : Except ExtractorError LeaseExtraction
deriving DecidableEq

/-- One pass of the `for attempt in range(MAX_RETRIES)` loop body of
`_extract_with_openai`, starting at 0-indexed `attempt`; `fuel` is the
number of loop iterations remaining (`MAX_RETRIES - attempt`).
An `OpenAIError` or JSON parse failure on a non-final attempt sleeps the
exponential backoff and retries; on the final attempt the `OpenAIError`
is re-raised as-is and the parse failure is wrapped in an
`ExtractionError`.  A schema-validation `ExtractionError` is re-raised
immediately by the catch-all handler, never retried. -/
def extract_go (collab : Nat → AttemptOutcome) : Nat → Nat → ExtractTrace
  | _, 0 =>
    { calls := 0, delays := [], result := Except.error (.extractionError "loop exhausted") }
  | attempt, fuel + 1 =>
    match collab attempt with
    | .parsed data =>
      (match _validate_extraction data with
       | Except.ok _ => { calls := 1, delays := [], result := Except.ok data }
       | Except.error msg =>
          { calls := 1, delays := [],
            result := Except.error (.extractionError msg) })
    | .apiError msg =>
      if attempt < MAX_RETRIES - 1 then
        let t := extract_go collab (attempt + 1) fuel
        { calls := t.calls + 1,
          delays := _exponential_backoff attempt :: t.delays,
          result := t.result }
      else
        { calls := 1, delays := [], result := Except.error (.openAIError msg) }
    | .parseError msg =>
      if attempt < MAX_RETRIES - 1 then
        let t := extract_go collab (attempt + 1) fuel
        { calls := t.calls + 1,
          delays := _exponential_backoff attempt :: t.delays,
          result := t.result }
      else
        { calls := 1, delays := [],
          result := Except.error
            (.extractionError ("Invalid JSON from OpenAI: " ++ msg)) }

/-- `AIExtractor._extract_with_openai`: the retry loop over
`range(MAX_RETRIES)` attempts. -/
def _extract_with_openai (collab : Nat → AttemptOutcome) : ExtractTrace :=
  extract_go collab 0 MAX_RETRIES

/-- `AIExtractor.extract`: delegates to `_extract_with_openai`. -/
def extract (collab : Nat → AttemptOutcome) : ExtractTrace :=
  _extract_with_openai collab

end AIExtractor

/-- An attempt outcome is retryable when it is an API-level or JSON-parse
failure (a successfully parsed response is not). -/
def AttemptOutcome.retryable : AttemptOutcome → Bool
  | .apiError _ => true
  | .parseError _ => true
  | .parsed _ => false

/-- The error `_extract_with_openai` raises when its final (0-indexed
attempt 2) collaborator call ends with the given retryable outcome: the
bare `OpenAIError` is re-raised for API failures, and parse failures are
wrapped in an `ExtractionError`.  The `parsed` case is unreachable for a
failing final attempt. -/
def last_attempt_error : AttemptOutcome → ExtractorError
  | .apiError m => .openAIError m
  | .parseError m => .extractionError ("Invalid JSON from OpenAI: " ++ m)
  | .parsed _ => .extractionError "unreachable"

/-! ## Concrete records used by witnesses and counterexamples -/

/-- A fully valid sample record (modelled on the example in schemas.py). -/
def sample_record : LeaseExtraction :=
  { tenants := [{ first_name := "Daniela", last_name := "Rudolph",
                  birth_date := some 100 }],
    name := some "Daniela", surname := some "Rudolph",
    address := { street := "Zieblandstrasse", house_number := "25",
                 zip_code := "80798", city := "München",
                 apartment_unit := some "3.OG links" },
    warm_rent := 1405, cold_rent := 1040,
    utilities_cost := some 290, parking_rent := some 75,
    rent_increase_type := RentIncreaseType.fixed_step,
    rent_increase_schedule := some [[("date", "2020-07-01")]],
    contract_start_date := 0, contract_end_date := Option.none,
    is_active := true,
    landlord_name := some "Franz", landlord_address := Option.none,
    deposit_amount := some 2080, notice_period := Option.none,
    special_clauses := Option.none, utilities_included := Option.none,
    square_meters := some 65, number_of_rooms := some 2,
    confidence_scores :=
      [("tenants", 1), ("address", 1), ("warm_rent", 1), ("cold_rent", 1),
       ("contract_start_date", 1), ("rent_increase_type", 1)],
    ai_model_used := "gpt-4-turbo-preview" }

/-- Sample record whose warm rent is below its cold rent (all hard-gate
fields valid). -/
def bad_rent_record : LeaseExtraction :=
  { sample_record with
    warm_rent := 500
    cold_rent := 1000
    utilities_cost := Option.none
    deposit_amount := Option.none }

/-- Sample record with a fixed contract end date (day 100). -/
def end_dated_record : LeaseExtraction :=
  { sample_record with contract_end_date := some 100 }

/-- Sample record whose confidence map has low confidence under both the
parent key `address` and the literal key `address.street`. -/
def low_conf_record : LeaseExtraction :=
  { sample_record with confidence_scores :=
      [("address", 0.3), ("address.street", 0.3)] }

/-- Sample record with low confidence on non-nested required fields. -/
def warn_conf_record : LeaseExtraction :=
  { sample_record with confidence_scores :=
      [("tenants", 0.3), ("address", 0.2)] }

/-- Sample record with an empty confidence map. -/
def empty_conf_record : LeaseExtraction :=
  { sample_record with confidence_scores := [] }

/-- Sample record whose overall score lands in [80, 90): every required
field has confidence 0.7, giving overall 88. -/
def tier_sample_record : LeaseExtraction :=
  { sample_record with confidence_scores :=
      [("tenants", 0.7), ("address", 0.7), ("warm_rent", 0.7),
       ("cold_rent", 0.7), ("contract_start_date", 0.7),
       ("rent_increase_type", 0.7)] }

/-- Sample record whose zip code fails the 5-digit schema gate. -/
def bad_zip_record : LeaseExtraction :=
  { sample_record with address :=
      { sample_record.address with zip_code := "123" } }

/-- A collaborator that fails with the same API error on every attempt. -/
def const_api_failure : Nat → AttemptOutcome :=
  fun _ => AttemptOutcome.apiError "boom"

/-- A collaborator whose response always parses but fails schema
validation. -/
def schema_fail_collab : Nat → AttemptOutcome :=
  fun _ => AttemptOutcome.parsed bad_zip_record

/-- The quality tier of an assessment outcome (tier of the report when
one was produced). -/
def report_tier_of (x : Except String QualityMetrics) : String :=
  match x with
  | Except.ok m => m.quality_tier
  | Except.error _ => "error"

/-- The overall score of an assessment outcome (0 when none was
produced). -/
def report_overall_of (x : Except String QualityMetrics) : ℚ :=
  match x with
  | Except.ok m => m.overall_score
  | Except.error _ => 0

/-! ## Helper lemmas -/

lemma dict_get_mem {α : Type} (l : List (String × α)) (k : String) (v : α)
    (h : dict_get l k = some v) : (k, v) ∈ l := by
  induction l with
  | nil => simp [dict_get] at h
  | cons p rest ih =>
    obtain ⟨a, b⟩ := p
    rw [dict_get] at h
    split at h
    · rename_i ha
      cases h
      subst ha
      exact List.mem_cons_self _ _
    · exact List.mem_cons_of_mem _ (ih h)

namespace QualityScorer

lemma confidence_fold_eq (scores : List (String × ℚ)) (fields : List String) :
    confidence_fold scores fields =
      (fields.map (fun f => (dict_get scores (confidence_field_key f)).getD 0.5),
       fields.filterMap (low_conf_warning scores)) := by
  induction fields with
  | nil => rfl
  | cons f rest ih =>
    simp only [confidence_fold, ih, List.map_cons, List.filterMap_cons,
      low_conf_warning]
    cases hdg : dict_get scores (confidence_field_key f) with
    | none => simp
    | some score =>
      by_cases hc : score < 0.6 ∧ confidence_field_key f = f
      · simp [hc.1, hc.2]
      · simp [hc]

lemma conf_score_empty (r : LeaseExtraction) (h : r.confidence_scores = []) :
    _calculate_confidence_score r = ([no_conf_issue], 50) := by
  simp [_calculate_confidence_score, h, no_conf_issue]

lemma conf_score_nonempty (r : LeaseExtraction) (h : r.confidence_scores ≠ []) :
    _calculate_confidence_score r =
      (REQUIRED_FIELDS.filterMap (low_conf_warning r.confidence_scores),
       (REQUIRED_FIELDS.map (fun f =>
          (dict_get r.confidence_scores (confidence_field_key f)).getD 0.5)).sum
         / 9 * 100) := by
  simp only [_calculate_confidence_score, h, if_neg, confidence_fold_eq]
  have h9 : (REQUIRED_FIELDS.map (fun f =>
      (dict_get r.confidence_scores (confidence_field_key f)).getD 0.5)).length = 9 := by
    simp [REQUIRED_FIELDS]
  have hne : (REQUIRED_FIELDS.map (fun f =>
      (dict_get r.confidence_scores (confidence_field_key f)).getD 0.5)) ≠ [] := by
    simp [REQUIRED_FIELDS]
  simp [hne, h9]

lemma list_sum_bounds (l : List ℚ) (h : ∀ x ∈ l, 0 ≤ x ∧ x ≤ 1) :
    0 ≤ l.sum ∧ l.sum ≤ (l.length : ℚ) := by
  constructor
  · exact List.sum_nonneg (fun x hx => (h x hx).1)
  · have hb := List.sum_le_card_nsmul l 1 (fun x hx => (h x hx).2)
    simpa using hb

lemma ratio_score_bounds (p t : Nat) (hpt : p ≤ t) :
    0 ≤ (if t > 0 then (p : ℚ) / (t : ℚ) * 100 else 100) ∧
      (if t > 0 then (p : ℚ) / (t : ℚ) * 100 else 100) ≤ 100 := by
  split
  · rename_i ht
    have ht' : (0 : ℚ) < t := by exact_mod_cast ht
    have h1 : (p : ℚ) / t ≤ 1 := by
      rw [div_le_one ht']
      exact_mod_cast hpt
    have h0 : (0 : ℚ) ≤ (p : ℚ) / t := by positivity
    constructor
    · nlinarith
    · nlinarith
  · norm_num

lemma conf_score_bounds (r : LeaseExtraction)
    (hc : ∀ p ∈ r.confidence_scores, 0 ≤ p.2 ∧ p.2 ≤ 1) :
    0 ≤ (_calculate_confidence_score r).2 ∧
      (_calculate_confidence_score r).2 ≤ 100 := by
  by_cases h : r.confidence_scores = []
  · rw [conf_score_empty r h]
    norm_num
  · rw [conf_score_nonempty r h]
    have hL : ∀ x ∈ (REQUIRED_FIELDS.map (fun f =>
        (dict_get r.confidence_scores (confidence_field_key f)).getD 0.5)),
        0 ≤ x ∧ x ≤ 1 := by
      intro x hx
      obtain ⟨f, _, rfl⟩ := List.mem_map.mp hx
      cases hdg : dict_get r.confidence_scores (confidence_field_key f) with
      | none => norm_num
      | some v =>
        simpa using hc _ (dict_get_mem _ _ _ hdg)
    have hsum := list_sum_bounds _ hL
    have hlen : ((REQUIRED_FIELDS.map (fun f =>
        (dict_get r.confidence_scores (confidence_field_key f)).getD 0.5)).length : ℚ)
        = 9 := by
      simp [REQUIRED_FIELDS]
    rw [hlen] at hsum
    constructor
    · have := hsum.1
      positivity
    · have h9 := hsum.2
      nlinarith [hsum.1]

lemma compl_score_bounds (r : LeaseExtraction) :
    0 ≤ (_calculate_completeness_score r).2 ∧
      (_calculate_completeness_score r).2 ≤ 100 := by
  have hF : (REQUIRED_FIELDS.filter (_is_field_filled r)).length ≤ 9 := by
    have hle := List.length_filter_le (_is_field_filled r) REQUIRED_FIELDS
    simpa [REQUIRED_FIELDS] using hle
  have hB : (BONUS_FIELDS.filter (_is_field_filled r)).length ≤ 10 := by
    have hle := List.length_filter_le (_is_field_filled r) BONUS_FIELDS
    simpa [BONUS_FIELDS] using hle
  have hFq : ((REQUIRED_FIELDS.filter (_is_field_filled r)).length : ℚ) ≤ 9 := by
    exact_mod_cast hF
  have hBq : ((BONUS_FIELDS.filter (_is_field_filled r)).length : ℚ) ≤ 10 := by
    exact_mod_cast hB
  have hF0 : (0 : ℚ) ≤ ((REQUIRED_FIELDS.filter (_is_field_filled r)).length : ℚ) := by
    positivity
  have hB0 : (0 : ℚ) ≤ ((BONUS_FIELDS.filter (_is_field_filled r)).length : ℚ) := by
    positivity
  have hf1 : ((REQUIRED_FIELDS.filter (_is_field_filled r)).length : ℚ) / 9 ≤ 1 := by
    rw [div_le_one (by norm_num : (0:ℚ) < 9)]
    exact hFq
  have hb1 : ((BONUS_FIELDS.filter (_is_field_filled r)).length : ℚ) / 10 ≤ 1 := by
    rw [div_le_one (by norm_num : (0:ℚ) < 10)]
    exact hBq
  have hf0 : (0 : ℚ) ≤ ((REQUIRED_FIELDS.filter (_is_field_filled r)).length : ℚ) / 9 := by
    positivity
  have hb0 : (0 : ℚ) ≤ ((BONUS_FIELDS.filter (_is_field_filled r)).length : ℚ) / 10 := by
    positivity
  simp only [_calculate_completeness_score]
  have hRL : REQUIRED_FIELDS.length = 9 := rfl
  have hBL : BONUS_FIELDS.length = 10 := rfl
  rw [hRL, hBL]
  norm_num
  constructor
  · nlinarith
  · nlinarith

lemma valid_score_bounds (r : LeaseExtraction) :
    0 ≤ (_calculate_validation_score r).2 ∧
      (_calculate_validation_score r).2 ≤ 100 := by
  simp only [_calculate_validation_score]
  exact ratio_score_bounds _ _ (List.length_filter_le _ _)

lemma collect_checks_err_none (today : Int) (r : LeaseExtraction)
    (cs : List (Int → LeaseExtraction →
      Except String (Option (Bool × QualityIssue))))
    (h : ∀ c ∈ cs, ∀ e, c today r ≠ Except.error e) :
    (collect_checks today r cs).2 = Option.none := by
  induction cs with
  | nil => rfl
  | cons c rest ih =>
    have hc := h c (List.mem_cons_self c rest)
    have hrest := ih (fun c' hc' => h c' (List.mem_cons_of_mem _ hc'))
    cases hcr : c today r with
    | error e => exact absurd hcr (hc e)
    | ok o =>
      cases o with
      | none => simpa [collect_checks, hcr] using hrest
      | some pr => simpa [collect_checks, hcr] using hrest

lemma check_1_ne_error (today : Int) (r : LeaseExtraction) (e : String) :
    check_1 today r ≠ Except.error e := by
  simp [check_1]

lemma check_2_ne_error (today : Int) (r : LeaseExtraction) (e : String) :
    check_2 today r ≠ Except.error e := by
  simp [check_2]

lemma check_3_ne_error (today : Int) (r : LeaseExtraction) (e : String) :
    check_3 today r ≠ Except.error e := by
  simp [check_3]

lemma check_5_ne_error (today : Int) (r : LeaseExtraction) (e : String) :
    check_5 today r ≠ Except.error e := by
  simp [check_5]

lemma check_4_ne_error (today : Int) (r : LeaseExtraction) (e : String)
    (hz : (int_of_string r.address.zip_code).isSome) :
    check_4 today r ≠ Except.error e := by
  obtain ⟨z, hz'⟩ := Option.isSome_iff_exists.mp hz
  simp only [check_4]
  split
  · rw [hz']
    simp
  · simp

lemma consist_ok_of_zip (today : Int) (r : LeaseExtraction)
    (hz : (int_of_string r.address.zip_code).isSome) :
    ∃ q, (_calculate_consistency_score today r).2 = Except.ok q := by
  have herr : (collect_checks today r consistency_checks).2 = Option.none := by
    apply collect_checks_err_none
    intro c hcmem e
    simp only [consistency_checks, List.mem_cons, List.mem_singleton,
      List.not_mem_nil, or_false] at hcmem
    rcases hcmem with h1 | h2 | h3 | h4 | h5
    · exact h1 ▸ check_1_ne_error today r e
    · exact h2 ▸ check_2_ne_error today r e
    · exact h3 ▸ check_3_ne_error today r e
    · exact h4 ▸ check_4_ne_error today r e hz
    · exact h5 ▸ check_5_ne_error today r e
  simp only [_calculate_consistency_score]
  rw [herr]
  exact ⟨_, rfl⟩

lemma consist_score_ok_bounds (today : Int) (r : LeaseExtraction) (q : ℚ)
    (h : (_calculate_consistency_score today r).2 = Except.ok q) :
    0 ≤ q ∧ q ≤ 100 := by
  simp only [_calculate_consistency_score] at h
  cases herr : (collect_checks today r consistency_checks).2 with
  | some e =>
    rw [herr] at h
    simp at h
  | none =>
    rw [herr] at h
    simp only [Except.ok.injEq] at h
    subst h
    exact ratio_score_bounds _ _ (List.length_filter_le _ _)

end QualityScorer

lemma ite_ok_cond {c : Prop} [Decidable c] {l : List String}
    (h : (if c then (Except.ok () : Except (List String) Unit)
          else Except.error l) = Except.ok ()) : c := by
  by_cases hc : c
  · exact hc
  · rw [if_neg hc] at h
    simp at h

lemma validate_ok_errs (r : LeaseExtraction) (hv : r.validate = Except.ok ()) :
    r.validation_errors_list = [] := by
  rw [LeaseExtraction.validate] at hv
  exact ite_ok_cond hv

lemma validate_ok_zip (r : LeaseExtraction) (hv : r.validate = Except.ok ()) :
    (int_of_string r.address.zip_code).isSome := by
  have herrs := validate_ok_errs r hv
  rw [LeaseExtraction.validation_errors_list] at herrs
  simp only [List.append_eq_nil] at herrs
  have hzip := herrs.1.1.1.1.1.1.1.1.1.2
  cases hval : validate_german_postal_code r.address.zip_code with
  | error e =>
    rw [hval] at hzip
    simp at hzip
  | ok s =>
    unfold validate_german_postal_code at hval
    split at hval
    · rename_i hcond
      have hne : r.address.zip_code ≠ "" := by
        intro he
        rw [he] at hcond
        simp at hcond
      simp [int_of_string, hne, hcond.2]
    · simp at hval

lemma build_ok (o c cp v cs : ℚ) (errs warns : List String)
    (h : 0 ≤ o ∧ o ≤ 100 ∧ 0 ≤ c ∧ c ≤ 1 ∧ 0 ≤ cp ∧ cp ≤ 100 ∧
         0 ≤ v ∧ v ≤ 100 ∧ 0 ≤ cs ∧ cs ≤ 100) :
    QualityMetrics.build o c cp v cs errs warns = Except.ok
      { overall_score := o, confidence_score := c, completeness_score := cp,
        validation_score := v, consistency_score := cs,
        validation_errors := errs, warnings := warns, field_scores := [] } := by
  simp only [QualityMetrics.build]
  rw [if_pos h]

lemma build_inv (o c cp v cs : ℚ) (errs warns : List String) (m : QualityMetrics)
    (h : QualityMetrics.build o c cp v cs errs warns = Except.ok m) :
    m.overall_score = o ∧ m.confidence_score = c ∧ m.completeness_score = cp ∧
    m.validation_score = v ∧ m.consistency_score = cs ∧
    m.validation_errors = errs ∧ m.warnings = warns := by
  simp only [QualityMetrics.build] at h
  split at h
  · cases h
    exact ⟨rfl, rfl, rfl, rfl, rfl, rfl, rfl⟩
  · simp at h

namespace QualityScorer

lemma assess_fst (today : Int) (s : QualityScorer) (r : LeaseExtraction) :
    (assess_quality today s r).1 = { issues := assess_issues today r } := by
  simp only [assess_quality, assess_issues]
  cases h : (_calculate_consistency_score today r).2 <;> simp [h]

lemma assess_snd (today : Int) (s : QualityScorer) (r : LeaseExtraction) (q : ℚ)
    (hq : (_calculate_consistency_score today r).2 = Except.ok q) :
    (assess_quality today s r).2 =
      QualityMetrics.build
        ((_calculate_confidence_score r).2 * CONFIDENCE_WEIGHT +
         (_calculate_completeness_score r).2 * COMPLETENESS_WEIGHT +
         (_calculate_validation_score r).2 * VALIDATION_WEIGHT +
         q * CONSISTENCY_WEIGHT)
        ((_calculate_confidence_score r).2 / 100)
        (_calculate_completeness_score r).2
        (_calculate_validation_score r).2 q
        (((assess_issues today r).filter
            (fun i => i.severity == "error")).map (fun i => i.message))
        (((assess_issues today r).filter
            (fun i => i.severity == "warning")).map (fun i => i.message)) := by
  simp only [assess_quality, assess_issues]
  rw [hq]
  rfl

lemma assess_snd_error (today : Int) (s : QualityScorer) (r : LeaseExtraction)
    (e : String)
    (he : (_calculate_consistency_score today r).2 = Except.error e) :
    (assess_quality today s r).2 = Except.error e := by
  simp only [assess_quality]
  rw [he]

lemma assess_ok_of_valid (today : Int) (s : QualityScorer) (r : LeaseExtraction)
    (hv : r.validate = Except.ok ())
    (hc : ∀ p ∈ r.confidence_scores, 0 ≤ p.2 ∧ p.2 ≤ 1) :
    ∃ q, (_calculate_consistency_score today r).2 = Except.ok q ∧
      (assess_quality today s r).2 = Except.ok
        { overall_score :=
            (_calculate_confidence_score r).2 * CONFIDENCE_WEIGHT +
            (_calculate_completeness_score r).2 * COMPLETENESS_WEIGHT +
            (_calculate_validation_score r).2 * VALIDATION_WEIGHT +
            q * CONSISTENCY_WEIGHT,
          confidence_score := (_calculate_confidence_score r).2 / 100,
          completeness_score := (_calculate_completeness_score r).2,
          validation_score := (_calculate_validation_score r).2,
          consistency_score := q,
          validation_errors := ((assess_issues today r).filter
            (fun i => i.severity == "error")).map (fun i => i.message),
          warnings := ((assess_issues today r).filter
            (fun i => i.severity == "warning")).map (fun i => i.message),
          field_scores := [] } := by
  obtain ⟨q, hq⟩ := consist_ok_of_zip today r (validate_ok_zip r hv)
  have hcb := conf_score_bounds r hc
  have hpb := compl_score_bounds r
  have hvb := valid_score_bounds r
  have hsb := consist_score_ok_bounds today r q hq
  refine ⟨q, hq, ?_⟩
  rw [assess_snd today s r q hq]
  apply build_ok
  simp only [CONFIDENCE_WEIGHT, COMPLETENESS_WEIGHT, VALIDATION_WEIGHT,
    CONSISTENCY_WEIGHT]
  refine ⟨by linarith [hcb.1, hpb.1, hvb.1, hsb.1],
          by linarith [hcb.2, hpb.2, hvb.2, hsb.2],
          by linarith [hcb.1], ?_,
          hpb.1, hpb.2, hvb.1, hvb.2, hsb.1, hsb.2⟩
  rw [div_le_one (by norm_num : (0:ℚ) < 100)]
  exact hcb.2

end QualityScorer

lemma flatMap_eq_nil_of {α β : Type} (l : List α) (f : α → List β)
    (h : ∀ x ∈ l, f x = []) : l.flatMap f = [] := by
  induction l with
  | nil => rfl
  | cons a rest ih =>
    rw [List.flatMap_cons, h a (List.mem_cons_self a rest),
      ih (fun x hx => h x (List.mem_cons_of_mem _ hx))]
    rfl

lemma validation_errors_nil_of_hard_gate (r : LeaseExtraction)
    (h : hard_gate_ok r) : r.validation_errors_list = [] := by
  obtain ⟨h1, h2, h3, h4, h5, h6, h7, h8, h9, h10, h11, h12, h13, h14⟩ := h
  have h2' : ∀ t ∈ r.tenants,
      1 ≤ t.first_name.length ∧ 1 ≤ t.last_name.length := by
    intro t ht
    have := List.all_eq_true.mp h2 t ht
    simpa using this
  rw [LeaseExtraction.validation_errors_list]
  simp only [List.append_eq_nil]
  refine ⟨⟨⟨⟨⟨⟨⟨⟨⟨⟨⟨⟨⟨?_, ?_⟩, ?_⟩, ?_⟩, ?_⟩, ?_⟩, ?_⟩, ?_⟩, ?_⟩, ?_⟩,
    ?_⟩, ?_⟩, ?_⟩, ?_⟩
  · simp [h1]
  · apply flatMap_eq_nil_of
    intro t ht
    simp [(h2' t ht).1, (h2' t ht).2]
  · simp [h3]
  · simp [validate_house_number, h4]
  · simp [validate_german_postal_code, h5, h6]
  · simp [h7]
  · simp [h8]
  · simp [validate_warm_rent_vs_cold_rent, fields_before_warm_rent]
  · simp [h9]
  · cases hu : r.utilities_cost with
    | none => simp
    | some u =>
      rw [hu] at h10
      simp only [Option.all_some, decide_eq_true_eq] at h10
      simp [h10]
  · cases hp : r.parking_rent with
    | none => simp
    | some p =>
      rw [hp] at h11
      simp only [Option.all_some, decide_eq_true_eq] at h11
      simp [h11]
  · cases hd : r.deposit_amount with
    | none => simp
    | some d =>
      rw [hd] at h12
      simp only [Option.all_some, decide_eq_true_eq] at h12
      simp [h12]
  · cases hs : r.square_meters with
    | none => simp
    | some sq =>
      rw [hs] at h13
      simp only [Option.all_some, decide_eq_true_eq] at h13
      simp [h13]
  · cases hn : r.number_of_rooms with
    | none => simp
    | some n =>
      rw [hn] at h14
      simp only [Option.all_some, decide_eq_true_eq] at h14
      simp [h14]

lemma validate_ok_of_hard_gate (r : LeaseExtraction) (h : hard_gate_ok r) :
    r.validate = Except.ok () := by
  rw [LeaseExtraction.validate, if_pos (validation_errors_nil_of_hard_gate r h)]

namespace QualityScorer

lemma valid_score_lt_100_of_results (r : LeaseExtraction)
    (i : QualityIssue) (rest : List (Bool × QualityIssue))
    (hres : validation_rules.filterMap (fun rule => rule r) =
      (false, i) :: rest) :
    (_calculate_validation_score r).2 < 100 ∧
      i ∈ (_calculate_validation_score r).1 := by
  simp only [_calculate_validation_score, hres]
  constructor
  · have hp : ((((false, i) :: rest).filter (fun p => p.1)).length : ℚ) ≤
        (rest.length : ℚ) := by
      have hstep : (((false, i) :: rest).filter (fun p => p.1)).length ≤
          rest.length := by
        have hfc : ((false, i) :: rest).filter (fun p => p.1) =
            rest.filter (fun p => p.1) := by
          simp
        rw [hfc]
        exact List.length_filter_le _ _
      exact_mod_cast hstep
    have hlen : (((false, i) :: rest).length : ℚ) = (rest.length : ℚ) + 1 := by
      simp
    rw [if_pos (by simp)]
    rw [hlen]
    have hpos : (0 : ℚ) < (rest.length : ℚ) + 1 := by positivity
    rw [div_mul_eq_mul_div, div_lt_iff₀ hpos]
    nlinarith
  · simp

lemma valid_fail_of_warm_lt_cold (r : LeaseExtraction)
    (hwc : r.warm_rent < r.cold_rent) :
    (_calculate_validation_score r).2 < 100 ∧
      ∃ i ∈ (_calculate_validation_score r).1, i.severity = "error" := by
  have h1 : rule_1 r = some (false,
      { severity := "error", category := "validation", field := "rent",
        message := "Warm rent (€" ++ toString r.warm_rent ++ ") < Cold rent (€"
                   ++ toString r.cold_rent ++ ")",
        impact := 0.3 }) := by
    simp [rule_1, not_le.mpr hwc]
  have hres : validation_rules.filterMap (fun rule => rule r) =
      (false,
       { severity := "error", category := "validation", field := "rent",
         message := "Warm rent (€" ++ toString r.warm_rent ++ ") < Cold rent (€"
                    ++ toString r.cold_rent ++ ")",
         impact := 0.3 }) ::
      List.filterMap (fun rule => rule r)
        [rule_2, rule_3, rule_4, rule_5, rule_6, rule_7, rule_8] := by
    rw [validation_rules, List.filterMap_cons]
    simp only [h1]
  obtain ⟨hlt, hmem⟩ := valid_score_lt_100_of_results r _ _ hres
  exact ⟨hlt, _, hmem, rfl⟩

lemma low_conf_warning_of_key_ne (scores : List (String × ℚ)) (f : String)
    (hne : confidence_field_key f ≠ f) :
    low_conf_warning scores f = Option.none := by
  unfold low_conf_warning
  cases dict_get scores (confidence_field_key f) with
  | none => rfl
  | some v => simp [hne]

lemma low_conf_warning_of_key_eq (scores : List (String × ℚ)) (f : String)
    (heq : confidence_field_key f = f) :
    low_conf_warning scores f =
      (match dict_get scores f with
       | some v =>
          if v < 0.6 then
            some { severity := "warning", category := "confidence",
                   field := f,
                   message := "Low confidence score: " ++ toString v,
                   impact := 0.1 }
          else Option.none
       | Option.none => Option.none) := by
  unfold low_conf_warning
  rw [heq]
  cases dict_get scores f with
  | none => rfl
  | some v => simp

end QualityScorer

namespace AIExtractor

lemma extract_go_step0 (collab : Nat → AttemptOutcome)
    (hr : (collab 0).retryable = true) :
    extract_go collab 0 3 =
      { calls := (extract_go collab 1 2).calls + 1,
        delays := 1 :: (extract_go collab 1 2).delays,
        result := (extract_go collab 1 2).result } := by
  cases hc : collab 0 with
  | parsed d =>
    rw [hc] at hr
    simp [AttemptOutcome.retryable] at hr
  | apiError m =>
    simp [extract_go, hc, MAX_RETRIES, _exponential_backoff, BASE_RETRY_DELAY]
  | parseError m =>
    simp [extract_go, hc, MAX_RETRIES, _exponential_backoff, BASE_RETRY_DELAY]

lemma extract_go_step1 (collab : Nat → AttemptOutcome)
    (hr : (collab 1).retryable = true) :
    extract_go collab 1 2 =
      { calls := (extract_go collab 2 1).calls + 1,
        delays := 2 :: (extract_go collab 2 1).delays,
        result := (extract_go collab 2 1).result } := by
  cases hc : collab 1 with
  | parsed d =>
    rw [hc] at hr
    simp [AttemptOutcome.retryable] at hr
  | apiError m =>
    simp [extract_go, hc, MAX_RETRIES, _exponential_backoff, BASE_RETRY_DELAY]
  | parseError m =>
    simp [extract_go, hc, MAX_RETRIES, _exponential_backoff, BASE_RETRY_DELAY]

lemma extract_go_last (collab : Nat → AttemptOutcome)
    (hr : (collab 2).retryable = true) :
    extract_go collab 2 1 =
      { calls := 1, delays := [],
        result := Except.error (last_attempt_error (collab 2)) } := by
  cases hc : collab 2 with
  | parsed d =>
    rw [hc] at hr
    simp [AttemptOutcome.retryable] at hr
  | apiError m =>
    simp [extract_go, hc, MAX_RETRIES, last_attempt_error]
  | parseError m =>
    simp [extract_go, hc, MAX_RETRIES, last_attempt_error]

end AIExtractor

/-! ## Claim theorems -/

/-- C1: For every validated Record (confidence-map values in [0,1]), the
overall score returned by `assess_quality` equals
confidence·0.30 + completeness·0.25 + validation·0.25 + consistency·0.20
exactly (hence within 1e-6), and lies in [0,100].  The report stores the
confidence sub-score rescaled to [0,1], so the sub-score is
`confidence_score · 100`. -/
theorem overall_score_weighted_sum (today : Int) (s : QualityScorer)
    (r : LeaseExtraction) (hv : r.validate = Except.ok ())
    (hc : ∀ p ∈ r.confidence_scores, 0 ≤ p.2 ∧ p.2 ≤ 1) :
    ∃ m, (QualityScorer.assess_quality today s r).2 = Except.ok m ∧
      m.overall_score = (m.confidence_score * 100) * 0.30 +
        m.completeness_score * 0.25 + m.validation_score * 0.25 +
        m.consistency_score * 0.20 ∧
      0 ≤ m.overall_score ∧ m.overall_score ≤ 100 := by
  obtain ⟨q, hq, hok⟩ := QualityScorer.assess_ok_of_valid today s r hv hc
  have hcb := QualityScorer.conf_score_bounds r hc
  have hpb := QualityScorer.compl_score_bounds r
  have hvb := QualityScorer.valid_score_bounds r
  have hsb := QualityScorer.consist_score_ok_bounds today r q hq
  refine ⟨_, hok, ?_, ?_, ?_⟩
  · show (QualityScorer._calculate_confidence_score r).2 *
        QualityScorer.CONFIDENCE_WEIGHT +
      (QualityScorer._calculate_completeness_score r).2 *
        QualityScorer.COMPLETENESS_WEIGHT +
      (QualityScorer._calculate_validation_score r).2 *
        QualityScorer.VALIDATION_WEIGHT +
      q * QualityScorer.CONSISTENCY_WEIGHT =
      ((QualityScorer._calculate_confidence_score r).2 / 100 * 100) * 0.30 +
      (QualityScorer._calculate_completeness_score r).2 * 0.25 +
      (QualityScorer._calculate_validation_score r).2 * 0.25 + q * 0.20
    rw [div_mul_cancel₀ _ (by norm_num : (100:ℚ) ≠ 0)]
    rfl
  · show 0 ≤ (QualityScorer._calculate_confidence_score r).2 *
        QualityScorer.CONFIDENCE_WEIGHT +
      (QualityScorer._calculate_completeness_score r).2 *
        QualityScorer.COMPLETENESS_WEIGHT +
      (QualityScorer._calculate_validation_score r).2 *
        QualityScorer.VALIDATION_WEIGHT +
      q * QualityScorer.CONSISTENCY_WEIGHT
    simp only [QualityScorer.CONFIDENCE_WEIGHT,
      QualityScorer.COMPLETENESS_WEIGHT, QualityScorer.VALIDATION_WEIGHT,
      QualityScorer.CONSISTENCY_WEIGHT]
    linarith [hcb.1, hpb.1, hvb.1, hsb.1]
  · show (QualityScorer._calculate_confidence_score r).2 *
        QualityScorer.CONFIDENCE_WEIGHT +
      (QualityScorer._calculate_completeness_score r).2 *
        QualityScorer.COMPLETENESS_WEIGHT +
      (QualityScorer._calculate_validation_score r).2 *
        QualityScorer.VALIDATION_WEIGHT +
      q * QualityScorer.CONSISTENCY_WEIGHT ≤ 100
    simp only [QualityScorer.CONFIDENCE_WEIGHT,
      QualityScorer.COMPLETENESS_WEIGHT, QualityScorer.VALIDATION_WEIGHT,
      QualityScorer.CONSISTENCY_WEIGHT]
    linarith [hcb.2, hpb.2, hvb.2, hsb.2]

/-- Witness for C1 at a concrete validated record whose confidence values
all equal 0.7: the hypotheses hold and the weighted-sum identity follows. -/
theorem overall_score_weighted_sum_witness :
    tier_sample_record.validate = Except.ok () ∧
    (∀ p ∈ tier_sample_record.confidence_scores, 0 ≤ p.2 ∧ p.2 ≤ 1) ∧
    ∃ m, (QualityScorer.assess_quality 0 quality_scorer tier_sample_record).2 =
        Except.ok m ∧
      m.overall_score = (m.confidence_score * 100) * 0.30 +
        m.completeness_score * 0.25 + m.validation_score * 0.25 +
        m.consistency_score * 0.20 ∧
      0 ≤ m.overall_score ∧ m.overall_score ≤ 100 :=
  ⟨by with_unfolding_all decide, by with_unfolding_all decide,
   overall_score_weighted_sum 0 quality_scorer tier_sample_record
     (by with_unfolding_all decide) (by with_unfolding_all decide)⟩

/-- C2: For every structurally valid Record (confidence-map values in
[0,1]) the assessment runs to completion and returns a report; no
business-rule violation raises. -/
theorem assess_total_on_valid (today : Int) (s : QualityScorer)
    (r : LeaseExtraction) (hv : r.validate = Except.ok ())
    (hc : ∀ p ∈ r.confidence_scores, 0 ≤ p.2 ∧ p.2 ≤ 1) :
    ∃ m, (QualityScorer.assess_quality today s r).2 = Except.ok m := by
  obtain ⟨q, hq, hok⟩ := QualityScorer.assess_ok_of_valid today s r hv hc
  exact ⟨_, hok⟩

/-- Witness for C2 at a concrete validated record. -/
theorem assess_total_on_valid_witness :
    sample_record.validate = Except.ok () ∧
    ∃ m, (QualityScorer.assess_quality 0 quality_scorer sample_record).2 =
      Except.ok m :=
  ⟨by with_unfolding_all decide,
   assess_total_on_valid 0 quality_scorer sample_record
     (by with_unfolding_all decide) (by with_unfolding_all decide)⟩

/-- C3 counterexample: the issue registry is stored as mutable instance
state — after a call, the engine object returned by the embedding holds
the accumulated issues — and the report depends on the current date, not
on the Record alone: the same record assessed on day 50 and on day 200
yields different reports. -/
theorem assess_purity_counterexample :
    (QualityScorer.assess_quality 0 quality_scorer bad_rent_record).1.issues ≠ [] ∧
    (QualityScorer.assess_quality 50 quality_scorer end_dated_record).2 ≠
      (QualityScorer.assess_quality 200 quality_scorer end_dated_record).2 := by
  constructor
  · with_unfolding_all decide
  · with_unfolding_all decide

/-- C3 amended: `assess_quality` resets the issue registry on entry, so
its result (report and final registry) never depends on state carried
between calls — for a fixed current date it is a function of the Record
alone; the registry is nevertheless kept in the engine's mutable state
rather than being call-local. -/
theorem assess_state_reset (today : Int) (s s' : QualityScorer)
    (r : LeaseExtraction) :
    QualityScorer.assess_quality today s r =
      QualityScorer.assess_quality today s' r := rfl

/-- C4 counterexample: for a report actually produced by `assess_quality`
(overall score 88), the report's `quality_tier` (80/60 table) says
"excellent" while `_determine_quality_level` (90/75/60 table, computed
inside `assess_quality`) says "good". -/
theorem quality_tier_counterexample :
    report_tier_of
      (QualityScorer.assess_quality 0 quality_scorer tier_sample_record).2 =
      "excellent" ∧
    QualityScorer._determine_quality_level
      (report_overall_of
        (QualityScorer.assess_quality 0 quality_scorer tier_sample_record).2) =
      "good" ∧
    ("excellent" : String) ≠ "good" := by
  refine ⟨?_, ?_, ?_⟩ <;> with_unfolding_all decide

/-- C4 amended: two distinct fixed threshold tables exist — the report's
`quality_tier` property uses 80/60 boundaries while `assess_quality`'s
internal `_determine_quality_level` uses 90/75/60 — and they agree
exactly when the overall score is below 60, in [75,80), or at least 90. -/
theorem quality_tier_two_tables (m : QualityMetrics) :
    QualityScorer._determine_quality_level m.overall_score = m.quality_tier ↔
      (m.overall_score < 60 ∨
       (75 ≤ m.overall_score ∧ m.overall_score < 80) ∨
       90 ≤ m.overall_score) := by
  unfold QualityScorer._determine_quality_level QualityMetrics.quality_tier
  split_ifs <;> simp_all <;> linarith

/-- C5 counterexample: with a collaborator that fails with the API error
"boom" on every attempt, the loop makes exactly 3 calls with backoff
delays of 1 s and 2 s, but then re-raises the bare last `OpenAIError`
itself — not a terminal extraction-error kind, and carrying no attempt
count. -/
theorem retry_exhaustion_counterexample :
    AIExtractor._extract_with_openai const_api_failure =
      { calls := 3, delays := [1, 2],
        result := Except.error (ExtractorError.openAIError "boom") } ∧
    ExtractorError.is_extraction_kind (ExtractorError.openAIError "boom") =
      false := by
  constructor
  · with_unfolding_all decide
  · rfl

/-- C5 amended: when the collaborator fails retryably on every attempt,
`_extract_with_openai` invokes it exactly 3 times (never a 4th) with
backoff delays of 1 s then 2 s, and then fails with the last underlying
error itself: the bare `OpenAIError` for an API failure, or an
`ExtractionError` wrapping the parse-error text (without attempt count)
for a JSON failure. -/
theorem retry_exhaustion_amended (collab : Nat → AttemptOutcome)
    (h : ∀ i, i < AIExtractor.MAX_RETRIES → (collab i).retryable = true) :
    AIExtractor._extract_with_openai collab =
      { calls := 3, delays := [1, 2],
        result := Except.error (last_attempt_error (collab 2)) } := by
  have h0 := h 0 (by norm_num [AIExtractor.MAX_RETRIES])
  have h1 := h 1 (by norm_num [AIExtractor.MAX_RETRIES])
  have h2 := h 2 (by norm_num [AIExtractor.MAX_RETRIES])
  have hstart : AIExtractor._extract_with_openai collab =
      AIExtractor.extract_go collab 0 3 := rfl
  rw [hstart, AIExtractor.extract_go_step0 collab h0,
    AIExtractor.extract_go_step1 collab h1,
    AIExtractor.extract_go_last collab h2]

/-- Witness for C5 amended: the all-API-failure collaborator satisfies
the retryability hypothesis and produces the stated trace. -/
theorem retry_exhaustion_amended_witness :
    (∀ i, i < AIExtractor.MAX_RETRIES →
      (const_api_failure i).retryable = true) ∧
    AIExtractor._extract_with_openai const_api_failure =
      { calls := 3, delays := [1, 2],
        result := Except.error (last_attempt_error (const_api_failure 2)) } :=
  ⟨fun _ _ => rfl, retry_exhaustion_amended const_api_failure (fun _ _ => rfl)⟩

/-- C6: A schema validation failure is never retried: when the first
response parses but fails the Schema Validator, the loop stops after a
single collaborator invocation, sleeps no backoff, and surfaces the
validation `ExtractionError` unchanged. -/
theorem schema_validation_never_retried (collab : Nat → AttemptOutcome)
    (c : LeaseExtraction) (msg : String)
    (h0 : collab 0 = AttemptOutcome.parsed c)
    (hval : AIExtractor._validate_extraction c = Except.error msg) :
    AIExtractor._extract_with_openai collab =
      { calls := 1, delays := [],
        result := Except.error (ExtractorError.extractionError msg) } := by
  have hstart : AIExtractor._extract_with_openai collab =
      AIExtractor.extract_go collab 0 3 := rfl
  rw [hstart]
  simp [AIExtractor.extract_go, h0, hval]

/-- Witness for C6: a collaborator whose parsed candidate has the zip
code "123" fails schema validation and is surfaced unchanged after one
call. -/
theorem schema_validation_never_retried_witness :
    schema_fail_collab 0 = AttemptOutcome.parsed bad_zip_record ∧
    AIExtractor._validate_extraction bad_zip_record = Except.error
      "Extracted data does not match schema: Invalid German postal code: 123. Must be 5 digits." ∧
    AIExtractor._extract_with_openai schema_fail_collab =
      { calls := 1, delays := [],
        result := Except.error (ExtractorError.extractionError
          "Extracted data does not match schema: Invalid German postal code: 123. Must be 5 digits.") } :=
  ⟨rfl, by with_unfolding_all decide,
   schema_validation_never_retried schema_fail_collab bad_zip_record _
     rfl (by with_unfolding_all decide)⟩

/-- C7: warm-rent-vs-cold-rent ordering is a soft check: a candidate with
warm_rent < cold_rent whose hard-gate fields are structurally valid is
accepted by the Schema Validator (the ordering validator is dead because
cold_rent is not yet in `info.data` when warm_rent is validated), and the
Quality Assessment records an error-severity issue with a validation
sub-score strictly below 100. -/
theorem warm_rent_soft_check (today : Int) (s : QualityScorer)
    (r : LeaseExtraction) (hg : hard_gate_ok r)
    (hwc : r.warm_rent < r.cold_rent) :
    r.validate = Except.ok () ∧
    (∃ i ∈ (QualityScorer._calculate_validation_score r).1,
      i.severity = "error") ∧
    (QualityScorer._calculate_validation_score r).2 < 100 ∧
    (∀ m, (QualityScorer.assess_quality today s r).2 = Except.ok m →
      m.validation_score < 100 ∧ m.validation_errors ≠ []) := by
  have hv := validate_ok_of_hard_gate r hg
  obtain ⟨hlt, i, hmem, hsev⟩ := QualityScorer.valid_fail_of_warm_lt_cold r hwc
  refine ⟨hv, ⟨i, hmem, hsev⟩, hlt, ?_⟩
  intro m hm
  cases hcons : (QualityScorer._calculate_consistency_score today r).2 with
  | error e =>
    rw [QualityScorer.assess_snd_error today s r e hcons] at hm
    exact absurd hm (by simp)
  | ok q =>
    rw [QualityScorer.assess_snd today s r q hcons] at hm
    have hinv := build_inv _ _ _ _ _ _ _ m hm
    constructor
    · rw [hinv.2.2.2.1]
      exact hlt
    · rw [hinv.2.2.2.2.2.1]
      have hin : i ∈ QualityScorer.assess_issues today r := by
        unfold QualityScorer.assess_issues
        exact List.mem_append.mpr (Or.inl
          (List.mem_append.mpr (Or.inr hmem)))
      have hfil : i ∈ (QualityScorer.assess_issues today r).filter
          (fun j => j.severity == "error") := by
        rw [List.mem_filter]
        refine ⟨hin, ?_⟩
        rw [hsev]
        rfl
      exact List.ne_nil_of_mem (List.mem_map_of_mem _ hfil)

/-- Witness for C7 at a record with warm rent 500 and cold rent 1000. -/
theorem warm_rent_soft_check_witness :
    hard_gate_ok bad_rent_record ∧
    bad_rent_record.warm_rent < bad_rent_record.cold_rent ∧
    bad_rent_record.validate = Except.ok () ∧
    (QualityScorer._calculate_validation_score bad_rent_record).2 < 100 := by
  have h := warm_rent_soft_check 0 quality_scorer bad_rent_record
    (by with_unfolding_all decide) (by with_unfolding_all decide)
  exact ⟨by with_unfolding_all decide, by with_unfolding_all decide,
    h.1, h.2.2.1⟩

/-- C8: the confidence sub-score is the average over the 9 required field
names of the looked-up confidence value (nested fields look up their
parent key), a missing entry contributing the neutral default 0.5; an
entirely absent confidence map yields exactly 50 together with a warning
issue, so the sub-score is never undefined. -/
theorem confidence_neutral_default (r : LeaseExtraction) :
    (QualityScorer._calculate_confidence_score r).2 =
      (if r.confidence_scores = [] then 50
       else (QualityScorer.REQUIRED_FIELDS.map (fun f =>
          (dict_get r.confidence_scores
            (QualityScorer.confidence_field_key f)).getD 0.5)).sum / 9 * 100) ∧
    (r.confidence_scores = [] →
      QualityScorer.no_conf_issue ∈
        (QualityScorer._calculate_confidence_score r).1) ∧
    QualityScorer.REQUIRED_FIELDS.length = 9 := by
  refine ⟨?_, ?_, rfl⟩
  · by_cases h : r.confidence_scores = []
    · rw [QualityScorer.conf_score_empty r h]
      simp [h]
    · rw [QualityScorer.conf_score_nonempty r h]
      simp [h]
  · intro h
    rw [QualityScorer.conf_score_empty r h]
    simp

/-- Witness for C8 at a record with an empty confidence map: score 50 and
the warning issue present. -/
theorem confidence_neutral_default_witness :
    empty_conf_record.confidence_scores = [] ∧
    (QualityScorer._calculate_confidence_score empty_conf_record).2 = 50 ∧
    QualityScorer.no_conf_issue ∈
      (QualityScorer._calculate_confidence_score empty_conf_record).1 := by
  have h := confidence_neutral_default empty_conf_record
  refine ⟨rfl, ?_, h.2.1 rfl⟩
  rw [h.1]
  rfl

/-- C9 counterexample: the required field `address.street` has
confidence-map value 0.3 (below 0.6) both under its own name and under
the parent key `address` actually used for the lookup, yet confidence
scoring records no warning at all — nested required fields are never
flagged. -/
theorem low_confidence_warning_counterexample :
    "address.street" ∈ QualityScorer.REQUIRED_FIELDS ∧
    dict_get low_conf_record.confidence_scores "address" = some 0.3 ∧
    dict_get low_conf_record.confidence_scores "address.street" = some 0.3 ∧
    ((0.3 : ℚ) < 0.6) ∧
    (QualityScorer._calculate_confidence_score low_conf_record).1 = [] := by
  refine ⟨by decide, ?_, ?_, ?_, ?_⟩ <;> with_unfolding_all decide

/-- C9 amended: during confidence scoring, exactly the non-nested
required fields (tenants, warm_rent, cold_rent, contract_start_date,
rent_increase_type) that are present in the confidence map with a value
below 0.6 are recorded as warning issues, one per field and in field
order; nested address fields never produce a low-confidence warning. -/
theorem low_confidence_warnings_amended (r : LeaseExtraction)
    (h : r.confidence_scores ≠ []) :
    (QualityScorer._calculate_confidence_score r).1 =
      ["tenants", "warm_rent", "cold_rent", "contract_start_date",
       "rent_increase_type"].filterMap (fun f =>
        match dict_get r.confidence_scores f with
        | some v =>
            if v < 0.6 then
              some { severity := "warning", category := "confidence",
                     field := f,
                     message := "Low confidence score: " ++ toString v,
                     impact := 0.1 }
            else Option.none
        | Option.none => Option.none) := by
  have h1 : (QualityScorer._calculate_confidence_score r).1 =
      QualityScorer.REQUIRED_FIELDS.filterMap
        (QualityScorer.low_conf_warning r.confidence_scores) := by
    rw [QualityScorer.conf_score_nonempty r h]
  rw [h1]
  have ht := QualityScorer.low_conf_warning_of_key_eq r.confidence_scores
    "tenants" (by with_unfolding_all decide)
  have hw := QualityScorer.low_conf_warning_of_key_eq r.confidence_scores
    "warm_rent" (by with_unfolding_all decide)
  have hcr := QualityScorer.low_conf_warning_of_key_eq r.confidence_scores
    "cold_rent" (by with_unfolding_all decide)
  have hsd := QualityScorer.low_conf_warning_of_key_eq r.confidence_scores
    "contract_start_date" (by with_unfolding_all decide)
  have hrt := QualityScorer.low_conf_warning_of_key_eq r.confidence_scores
    "rent_increase_type" (by with_unfolding_all decide)
  have hd1 := QualityScorer.low_conf_warning_of_key_ne r.confidence_scores
    "address.street" (by with_unfolding_all decide)
  have hd2 := QualityScorer.low_conf_warning_of_key_ne r.confidence_scores
    "address.house_number" (by with_unfolding_all decide)
  have hd3 := QualityScorer.low_conf_warning_of_key_ne r.confidence_scores
    "address.zip_code" (by with_unfolding_all decide)
  have hd4 := QualityScorer.low_conf_warning_of_key_ne r.confidence_scores
    "address.city" (by with_unfolding_all decide)
  simp only [QualityScorer.REQUIRED_FIELDS, List.filterMap_cons,
    List.filterMap_nil, ht, hw, hcr, hsd, hrt, hd1, hd2, hd3, hd4]

/-- Witness for C9 amended at a record whose map holds tenants → 0.3 and
address → 0.2: exactly one warning (for tenants) is recorded. -/
theorem low_confidence_warnings_amended_witness :
    warn_conf_record.confidence_scores ≠ [] ∧
    (QualityScorer._calculate_confidence_score warn_conf_record).1 =
      [{ severity := "warning", category := "confidence", field := "tenants",
         message := "Low confidence score: " ++ toString (0.3 : ℚ),
         impact := 0.1 }] := by
  refine ⟨by decide, ?_⟩
  rw [low_confidence_warnings_amended warn_conf_record (by decide)]
  with_unfolding_all decide

/-- C10: an optional monetary field that is exactly zero is treated as
absent: a zero utilities cost makes the utilities rule inapplicable (same
validation outcome as no utilities cost, and rule 2 yields no verdict); a
zero parking rent is neither subtracted in that rule nor checked against
cold rent (same validation and consistency outcomes as no parking rent,
and check 5 yields no verdict); and for completeness any numeric field
with value ≤ 0 counts as unfilled. -/
theorem zero_optional_fields (r : LeaseExtraction) (t : Int) (x : ℚ)
    (hx : x ≤ 0) :
    QualityScorer._calculate_validation_score
        { r with utilities_cost := some 0 } =
      QualityScorer._calculate_validation_score
        { r with utilities_cost := Option.none } ∧
    QualityScorer.rule_2 { r with utilities_cost := some 0 } = Option.none ∧
    QualityScorer._calculate_validation_score
        { r with parking_rent := some 0 } =
      QualityScorer._calculate_validation_score
        { r with parking_rent := Option.none } ∧
    QualityScorer._calculate_consistency_score t
        { r with parking_rent := some 0 } =
      QualityScorer._calculate_consistency_score t
        { r with parking_rent := Option.none } ∧
    QualityScorer.check_5 t { r with parking_rent := some 0 } =
      Except.ok Option.none ∧
    QualityScorer._is_field_filled { r with utilities_cost := some x }
      "utilities_cost" = false ∧
    QualityScorer._is_field_filled { r with parking_rent := some x }
      "parking_rent" = false ∧
    QualityScorer._is_field_filled { r with deposit_amount := some x }
      "deposit_amount" = false ∧
    QualityScorer._is_field_filled { r with square_meters := some x }
      "square_meters" = false ∧
    QualityScorer._is_field_filled { r with number_of_rooms := some x }
      "number_of_rooms" = false ∧
    QualityScorer._is_field_filled { r with warm_rent := x }
      "warm_rent" = false ∧
    QualityScorer._is_field_filled { r with cold_rent := x }
      "cold_rent" = false := by
  have hnlt := not_lt.mpr hx
  refine ⟨rfl, rfl, rfl, rfl, rfl, ?_, ?_, ?_, ?_, ?_, ?_, ?_⟩ <;>
    simp [QualityScorer._is_field_filled, hnlt]

/-- Witness for C10 at the sample record with x = -1. -/
theorem zero_optional_fields_witness :
    ((-1 : ℚ) ≤ 0) ∧
    QualityScorer._calculate_validation_score
        { sample_record with utilities_cost := some 0 } =
      QualityScorer._calculate_validation_score
        { sample_record with utilities_cost := Option.none } ∧
    QualityScorer._is_field_filled
      { sample_record with deposit_amount := some (-1) }
      "deposit_amount" = false := by
  have h := zero_optional_fields sample_record 0 (-1) (by norm_num)
  exact ⟨by norm_num, h.1, h.2.2.2.2.2.2.2.1⟩

end DocAI
